import Mathlib

/-!
Shallow embedding of the EDEN cognitive layer core
(src/cognitive_layer/ego_core.py, src/cognitive_layer/llm_analyzer.py,
src/cognitive_layer/config.py) for checking the natural-language
specification against the code.

Python floats are modelled as rationals (ℚ); all the arithmetic performed
by the modelled code (keyword counts, linear modulation, clamping) is exact
on the inputs of interest. Python dicts with optional keys are modelled as
structures of `Option` fields. External collaborators (ChromaDB retrieval,
the sentence-transformer embedder, the Ollama LLM, the planning server)
are modelled as oracle parameters supplying their replies; exceptions they
may raise are modelled by an explicit `raises` reply.
-/

attribute [local semireducible] Rat.add Rat.mul Rat.inv Rat.sub

namespace Eden

/-! ## String helpers (Python `str.lower`, substring `in`) -/

/-- Python `str.lower()` (ASCII-faithful), computed on the character
list so that it evaluates by kernel reduction. -/
def strLower (s : String) : String := String.mk (s.data.map Char.toLower)

/-- Auxiliary: does `sub` occur at the head of `l`? -/
def prefAt : List Char → List Char → Bool
  | [], _ => true
  | _ :: _, [] => false
  | a :: as, b :: bs => a == b && prefAt as bs

/-- Auxiliary: does `sub` occur anywhere in `l`? -/
def infAt (sub : List Char) : List Char → Bool
  | [] => prefAt sub []
  | b :: bs => prefAt sub (b :: bs) || infAt sub bs

/-- Python `sub in s` on strings (substring containment). -/
def strContains (s sub : String) : Bool := infAt sub.data s.data

/-- Python truthiness of an optional string (`None` and `""` are falsy). -/
def pyTruthy : Option String → Bool
  | none => false
  | some s => s ≠ ""

/-- Python `a or b` on optional strings. -/
def pyOr2 (a b : Option String) : Option String := if pyTruthy a then a else b

/-- `max(0.0, min(1.0, x))`. -/
def clamp01 (x : ℚ) : ℚ := max 0 (min 1 x)

/-! ## PersonalityVector (ego_core.py lines 29-44) -/

/-- Big 5 personality traits, each a float defaulting to 0.5. -/
structure PersonalityVector where
  Openness : ℚ := 1/2
  Conscientiousness : ℚ := 1/2
  Extroversion : ℚ := 1/2
  Agreeableness : ℚ := 1/2
  Neuroticism : ℚ := 1/2
  deriving DecidableEq

/-- The default personality (all traits 0.5). -/
def pvDefault : PersonalityVector := {}

/-- The five recognized trait names. -/
def traitNames : List String :=
  ["Openness", "Conscientiousness", "Extroversion", "Agreeableness", "Neuroticism"]

/-- `PersonalityVector.update_trait`: sets the named trait to the value
clamped to [0,1]; any other name leaves the five trait values unchanged
(the Python guard `hasattr(self, trait)` never reassigns a trait field for
a non-trait name). -/
def PersonalityVector.update_trait (p : PersonalityVector) (trait : String) (value : ℚ) :
    PersonalityVector :=
  if trait = "Openness" then { p with Openness := clamp01 value }
  else if trait = "Conscientiousness" then { p with Conscientiousness := clamp01 value }
  else if trait = "Extroversion" then { p with Extroversion := clamp01 value }
  else if trait = "Agreeableness" then { p with Agreeableness := clamp01 value }
  else if trait = "Neuroticism" then { p with Neuroticism := clamp01 value }
  else p

/-! ## Graph model (networkx DiGraph as used by EgoGraph) -/

/-- Node attribute dictionary; every key the code ever sets, optional. -/
structure NodeAttrs where
  node_type : Option String := none
  personality : Option PersonalityVector := none
  size : Option ℚ := none
  content : Option String := none
  importance : Option ℚ := none
  user_context : Option (Option String) := none
  user_id : Option String := none
  timestamp : Option String := none
  deriving DecidableEq

/-- Edge attribute dictionary (every add_edge in the code sets both keys). -/
structure EdgeAttrs where
  weight : ℚ
  edge_type : String
  deriving DecidableEq

/-- A directed graph: nodes in insertion order, edges in insertion order. -/
structure Graph where
  nodes : List (String × NodeAttrs) := []
  edges : List (String × String × EdgeAttrs) := []
  deriving DecidableEq

def Graph.hasNode (g : Graph) (id : String) : Bool :=
  g.nodes.any (fun p => p.1 == id)

def Graph.getNode (g : Graph) (id : String) : Option NodeAttrs :=
  (g.nodes.find? (fun p => p.1 == id)).map Prod.snd

/-- `add_node`: replaces the attribute dict if the node exists (every call
site supplies every attribute it uses), otherwise appends. -/
def Graph.addNode (g : Graph) (id : String) (a : NodeAttrs) : Graph :=
  if g.hasNode id then
    { g with nodes := g.nodes.map (fun p => if p.1 == id then (id, a) else p) }
  else
    { g with nodes := g.nodes ++ [(id, a)] }

/-- `add_edge`: auto-adds missing endpoints (networkx semantics), then
replaces the attribute dict of an existing (s,t) edge or appends a new one. -/
def Graph.addEdge (g0 : Graph) (s t : String) (a : EdgeAttrs) : Graph :=
  let g1 := if g0.hasNode s then g0 else { g0 with nodes := g0.nodes ++ [(s, {})] }
  let g := if g1.hasNode t then g1 else { g1 with nodes := g1.nodes ++ [(t, {})] }
  if g.edges.any (fun e => e.1 == s && e.2.1 == t) then
    { g with edges := g.edges.map (fun e => if e.1 == s && e.2.1 == t then (s, t, a) else e) }
  else
    { g with edges := g.edges ++ [(s, t, a)] }

/-- The weight of the edge from `s` to `t`, if present. -/
def Graph.edgeWeight (g : Graph) (s t : String) : Option ℚ :=
  (g.edges.find? (fun e => e.1 == s && e.2.1 == t)).map (fun e => e.2.2.weight)

/-- Update the `personality` attribute of a node
(`self.graph.nodes["SELF"]["personality"] = ...`). -/
def Graph.setPersonality (g : Graph) (id : String) (p : PersonalityVector) : Graph :=
  { g with nodes := g.nodes.map (fun q =>
      if q.1 == id then (q.1, { q.2 with personality := some p }) else q) }

/-! ## MemoryNode and the EgoGraph state -/

/-- A memory record (ego_core.py `MemoryNode`); the timestamp is the value
already resolved at construction. -/
structure MemoryNode where
  id : String
  content : String
  importance : ℚ
  user_context : Option String := none
  timestamp : String := ""
  node_type : String := "memory"
  deriving DecidableEq

/-- The mutable state of one `EgoGraph` instance: the networkx graph,
the live personality, and the MemoryEngine's stored records (the
user/global ChromaDB collections, merged; the collection a record lands in
is determined by its `user_context`). -/
structure EgoState where
  graph : Graph
  personality : PersonalityVector
  store : List MemoryNode
  deriving DecidableEq

/-- `_initialize_self_node`: the graph holding only the SELF node. -/
def initialGraph : Graph :=
  Graph.addNode {} "SELF"
    { node_type := some "self", personality := some pvDefault, size := some 50 }

/-- A freshly constructed `EgoGraph`. -/
def initialState : EgoState :=
  { graph := initialGraph, personality := pvDefault, store := [] }

/-- `EgoGraph._reweight_edges` (ego_core.py lines 274-290): for every edge
touching SELF, read the current weight (`data.get('weight', 1.0)`) and
rescale it by (1 + Neuroticism) for threat-typed targets or
(1 + Agreeableness) for joy-typed targets; other SELF-adjacent edges keep
the value read, and non-adjacent edges are untouched. -/
def reweightEdges (g : Graph) (p : PersonalityVector) : Graph :=
  { g with edges := g.edges.map (fun e =>
      let s := e.1
      let t := e.2.1
      let d := e.2.2
      if s == "SELF" || t == "SELF" then
        let base := d.weight
        if (g.getNode t).bind NodeAttrs.node_type == some "threat" then
          (s, t, { d with weight := base * (1 + p.Neuroticism) })
        else if (g.getNode t).bind NodeAttrs.node_type == some "joy" then
          (s, t, { d with weight := base * (1 + p.Agreeableness) })
        else
          (s, t, { d with weight := base })
      else e) }

/-- `EgoGraph.add_memory_node` (ego_core.py lines 292-327): store the
record, add the memory node sized `10 + importance*20`, link SELF→memory
when importance > 0.9, and link through the user subgraph when the record
carries a user context.  Returns the updated state and the memory id. -/
def addMemoryNode (st : EgoState) (m : MemoryNode) : EgoState × String :=
  let store := st.store ++ [m]
  let nodeSize : ℚ := 10 + m.importance * 20
  let g := st.graph.addNode m.id
    { node_type := some m.node_type, content := some m.content,
      importance := some m.importance, user_context := some m.user_context,
      timestamp := some m.timestamp, size := some nodeSize }
  let g := if m.importance > 9/10 then
      g.addEdge "SELF" m.id { weight := m.importance, edge_type := "global_memory" }
    else g
  let g := match m.user_context with
    | some uc =>
      let uid := "USER_" ++ uc
      let g := if g.hasNode uid then g else
        (g.addNode uid { node_type := some "user", user_id := some uc, size := some 15
          }).addEdge "SELF" uid { weight := 1/2, edge_type := "user_link" }
      g.addEdge uid m.id { weight := m.importance, edge_type := "user_memory" }
    | none => g
  ({ st with graph := g, store := store }, m.id)

/-- `EgoGraph.update_personality`: update the trait, refresh the SELF
node's personality attribute, and reweight the edges. -/
def updatePersonality (st : EgoState) (trait : String) (value : ℚ) : EgoState :=
  let p := st.personality.update_trait trait value
  let g := st.graph.setPersonality "SELF" p
  { st with personality := p, graph := reweightEdges g p }

/-- `EgoGraph.inject_trauma` (ego_core.py lines 911-933): add a global
threat memory of importance 0.95, set Neuroticism to 0.9 and Agreeableness
to 0.1, refresh the SELF node and reweight.  `fresh_id`/`time` stand for
the generated uuid and timestamp. -/
def injectTrauma (st : EgoState) (fresh_id description time : String) : EgoState × String :=
  let m : MemoryNode :=
    { id := fresh_id, content := description, importance := 19/20,
      user_context := none, timestamp := time, node_type := "threat" }
  let (st1, tid) := addMemoryNode st m
  let p := { st1.personality with Neuroticism := 9/10, Agreeableness := 1/10 }
  let g := (st1.graph.setPersonality "SELF" p)
  ({ st1 with personality := p, graph := reweightEdges g p }, tid)

/-! ## Perception filtering (ego_core.py lines 329-378) -/

/-- The fields of the dict returned by `filter_perception` that the core
computes itself (the retrieved-memory echo comes from the external store
and is omitted). -/
structure PerceptionResult where
  original_intent : String
  filtered_intent : String
  decision : String
  confidence : ℚ
  deriving DecidableEq

/-- The `trauma_nodes` check of `filter_perception`: does the graph hold
any trauma-typed or threat-typed node? -/
def hasTraumaNodes (g : Graph) : Bool :=
  g.nodes.any (fun p =>
    p.2.node_type == some "trauma" || p.2.node_type == some "threat")

/-- `EgoGraph.filter_perception`: keyword families modulated by
Neuroticism/Agreeableness, then the trauma-node override. -/
def filterPerception (st : EgoState) (input_intent : String) : PerceptionResult :=
  let original := strLower input_intent
  let r1 : String × String × ℚ :=
    if strContains original "sudden" || strContains original "movement" ||
        strContains original "threat" then
      if st.personality.Neuroticism > 4/5 then
        ("THREAT_DETECTED", "reject", st.personality.Neuroticism)
      else if st.personality.Neuroticism < 1/5 then
        ("EXCITEMENT", "accept", 1 - st.personality.Neuroticism)
      else (original, "accept", 1)
    else (original, "accept", 1)
  let r2 : String × String × ℚ :=
    if strContains original "friendly" || strContains original "kind" ||
        strContains original "help" then
      if st.personality.Agreeableness > 7/10 then
        ("POSITIVE_INTERACTION", "accept", st.personality.Agreeableness)
      else if st.personality.Agreeableness < 3/10 then
        ("SKEPTICAL_INTERACTION", "cautious", 1/2)
      else r1
    else r1
  let traumaExists := hasTraumaNodes st.graph
  if traumaExists && st.personality.Neuroticism > 3/5 then
    { original_intent := input_intent,
      filtered_intent := "FILTERED_BY_TRAUMA: " ++ r2.1,
      decision := "reject", confidence := st.personality.Neuroticism }
  else
    { original_intent := input_intent, filtered_intent := r2.1,
      decision := r2.2.1, confidence := r2.2.2 }

/-! ## Cognitive analyzer config and threshold (config.py, llm_analyzer.py) -/

/-- config.py `THRESHOLDS` table as a total lookup
(`THRESHOLDS.get(t, THRESHOLDS['default'])`). -/
def THRESHOLDS (t : String) : ℚ :=
  if t = "trauma" then 3/10
  else if t = "threat" then 3/10
  else if t = "joy" then 3/5
  else if t = "achievement" then 1/2
  else if t = "interaction" then 1/2
  else if t = "memory" then 1/2
  else if t = "routine" then 7/10
  else if t = "casual" then 4/5
  else 1/2

/-- config.py `MEMORY_DENSITY_THRESHOLD`. -/
def MEMORY_DENSITY_THRESHOLD : ℕ := 100

/-- `CognitiveAnalyzer.determine_threshold` (llm_analyzer.py lines
273-289); the context dict is passed as its two used entries. -/
def determine_threshold (event_type : String) (memory_count : ℕ)
    (p : PersonalityVector) : ℚ :=
  let base := THRESHOLDS event_type
  let base := if memory_count > MEMORY_DENSITY_THRESHOLD then base + 1/10 else base
  let base :=
    if (event_type = "threat" ∨ event_type = "trauma") ∧ p.Neuroticism > 7/10 then
      base - 1/5
    else base
  max (1/10) (min (9/10) base)

/-- Modelled from the spec's words (spec.md §4.3 step 7), for comparison
with `determine_threshold`: per-node-type base (trauma/threat 0.3, joy
0.6, achievement 0.5, routine 0.7, casual 0.8, default 0.5), +0.1 above
the density constant, −0.2 for threat/trauma when Neuroticism > 0.7,
clamped to [0.1, 0.9]. -/
def specThreshold (event_type : String) (memory_count : ℕ) (neuroticism : ℚ) : ℚ :=
  let base :=
    if event_type = "trauma" ∨ event_type = "threat" then 3/10
    else if event_type = "joy" then 3/5
    else if event_type = "achievement" then 1/2
    else if event_type = "routine" then 7/10
    else if event_type = "casual" then 4/5
    else (1/2 : ℚ)
  let base := if memory_count > MEMORY_DENSITY_THRESHOLD then base + 1/10 else base
  let base :=
    if (event_type = "threat" ∨ event_type = "trauma") ∧ neuroticism > 7/10 then
      base - 1/5
    else base
  max (1/10) (min (9/10) base)

/-- Result of the LLM analysis (llm_analyzer.py `LLMAnalysisResult`). -/
structure LLMAnalysisResult where
  importance : ℚ
  reasoning : String
  node_type : String
  threshold : ℚ
  confidence : ℚ := 4/5
  emotional_impact : Option String := none
  key_insights : List String := []
  deriving DecidableEq

/-! ## Event frames (ego_core.py lines 65-108) -/

/-- An incoming event dictionary: each key optional, as Python dicts are. -/
structure EventData where
  frame_id : Option String := none
  timestamp : Option String := none
  description : Option String := none
  user_id : Option String := none
  user_name : Option String := none
  detected_objects : Option (List String) := none
  detected_actions : Option (List String) := none
  emotional_tone : Option String := none
  scene_context : Option String := none
  source : Option String := none
  deriving DecidableEq

/-- A parsed `EventFrame`. -/
structure EventFrame where
  frame_id : String
  timestamp : String
  description : String
  user_id : Option String := none
  user_name : Option String := none
  detected_objects : List String := []
  detected_actions : List String := []
  emotional_tone : Option String := none
  scene_context : Option String := none
  source : String := "camera_frame"
  deriving DecidableEq

/-- `EventFrame.from_dict`: every missing key is substituted with a
default (`fresh_uuid`/`now` stand for the generated uuid and
`datetime.now()`). -/
def EventFrame.from_dict (d : EventData) (fresh_uuid now : String) : EventFrame :=
  { frame_id := d.frame_id.getD fresh_uuid,
    timestamp := d.timestamp.getD now,
    description := d.description.getD "",
    user_id := d.user_id,
    user_name := d.user_name,
    detected_objects := d.detected_objects.getD [],
    detected_actions := d.detected_actions.getD [],
    emotional_tone := d.emotional_tone,
    scene_context := d.scene_context,
    source := d.source.getD "camera_frame" }

/-! ## Importance scoring (ego_core.py lines 990-1095) -/

/-- High-importance keyword list of `_heuristic_importance_score`. -/
def highImportanceKeywords : List String :=
  ["finished", "completed", "achievement", "important", "significant",
   "milestone", "breakthrough", "accomplished", "success", "final",
   "done", "created", "built", "finished building"]

/-- Low-importance keyword list of `_heuristic_importance_score`. -/
def lowImportanceKeywords : List String :=
  ["cool", "nice", "casual", "routine", "normal", "typical", "just",
   "maybe", "might", "probably", "sort of", "kind of"]

/-- `EgoGraph._heuristic_importance_score`. -/
def heuristicImportanceScore (e : EventFrame) : ℚ :=
  let description := strLower e.description
  let importance : ℚ := 1/2
  let highCount : ℕ :=
    (highImportanceKeywords.filter (fun kw => strContains description kw)).length
  let importance :=
    if highCount > 0 then min (9/10) (1/2 + (highCount : ℚ) * (1/10)) else importance
  let lowCount : ℕ :=
    (lowImportanceKeywords.filter (fun kw => strContains description kw)).length
  let importance :=
    if lowCount > 0 then max (1/5) (importance - (lowCount : ℚ) * (1/10)) else importance
  let completionActions := ["completed", "finished", "achieved", "accomplished"]
  if e.detected_actions.any (fun a => completionActions.contains (strLower a)) then
    max importance (7/10)
  else importance

/-- `EgoGraph._apply_personality_modulation`, with config.py
`PERSONALITY_MODULATION` weights inlined. -/
def applyPersonalityModulation (p : PersonalityVector) (base_importance : ℚ)
    (e : EventFrame) (node_type : String) : ℚ :=
  let modulator : ℚ := 1
  let modulator :=
    if node_type ≠ "routine" ∧ node_type ≠ "casual" then
      modulator + (3/10) * (p.Openness - 1/2)
    else modulator
  let modulator :=
    if node_type = "achievement" then
      modulator + (2/5) * (p.Conscientiousness - 1/2)
    else modulator
  let modulator :=
    if pyTruthy e.user_name ∨ pyTruthy e.user_id then
      modulator + (3/10) * (p.Extroversion - 1/2)
    else modulator
  let modulator :=
    if node_type = "joy" ∨ node_type = "achievement" then
      modulator + (2/5) * (p.Agreeableness - 1/2)
    else if node_type = "threat" ∨ node_type = "trauma" then
      modulator + (-(1/5)) * (p.Agreeableness - 1/2)
    else modulator
  let modulator :=
    if node_type = "threat" ∨ node_type = "trauma" then
      modulator + (1/2) * p.Neuroticism
    else if node_type = "joy" ∨ node_type = "achievement" then
      modulator + (-(1/10)) * p.Neuroticism
    else modulator
  clamp01 (base_importance * modulator)

/-! ## Event-frame processing (ego_core.py lines 1097-1251) -/

/-- The collaborator replies a successful run of `process_event_frame`
consumes: the retrieved memories, the embedding-based semantic score, the
LLM analysis, the generated uuids and the current time. -/
structure OkReply where
  retrieved : List MemoryNode := []
  semantic_score : ℚ := 1/2
  llm : LLMAnalysisResult
  fresh_frame_id : String := "frame-uuid"
  fresh_memory_id : String := "memory-uuid"
  now : String := "now"
  deriving DecidableEq

/-- One event's collaborator behaviour: either the replies of a run that
completes, or an exception raised during processing (collaborator /
embedder / parsing failure), which the code catches. -/
inductive OracleReply where
  | ok (r : OkReply)
  | raises (msg : String)
  deriving DecidableEq

/-- The status an oracle reply leads to. -/
def OracleReply.statusOf : OracleReply → String
  | .ok _ => "processed"
  | .raises _ => "error"

/-- The dict returned by `process_event_frame`, with the reasoning-trace
entries flattened in.  `episodic_below` carries the numeric content of the
formatted `episodic_reason` string (final importance, threshold). -/
structure FrameResult where
  status : String
  event_id : String
  error : Option String := none
  importance : Option ℚ := none
  threshold : Option ℚ := none
  added_to_graph : Option Bool := none
  memory_id : Option (Option String) := none
  heuristic_score : Option ℚ := none
  semantic_score : Option ℚ := none
  llm_score : Option ℚ := none
  base_importance : Option ℚ := none
  personality_modulation : Option ℚ := none
  node_type : Option String := none
  relevant_memories_count : Option ℕ := none
  action : Option String := none
  episodic_below : Option (ℚ × ℚ) := none
  deriving DecidableEq

/-- The parsed event of a successful `process_event_frame` run. -/
def frameEvent (d : EventData) (r : OkReply) : EventFrame :=
  EventFrame.from_dict d r.fresh_frame_id r.now

/-- The combined base importance of a successful run
(`0.2*heuristic + 0.3*semantic + 0.5*llm`). -/
def frameBase (d : EventData) (r : OkReply) : ℚ :=
  heuristicImportanceScore (frameEvent d r) * (1/5) + r.semantic_score * (3/10) +
    r.llm.importance * (1/2)

/-- The personality-modulated final importance of a successful run. -/
def frameFinal (st : EgoState) (d : EventData) (r : OkReply) : ℚ :=
  applyPersonalityModulation st.personality (frameBase d r) (frameEvent d r)
    r.llm.node_type

/-- The admission threshold of a successful run (the context's
`memory_count` is `self.graph.number_of_nodes()`). -/
def frameThreshold (st : EgoState) (r : OkReply) : ℚ :=
  determine_threshold r.llm.node_type st.graph.nodes.length st.personality

/-- The `content` string of the committed memory
(`description | User: ... | Actions: ...`). -/
def frameMemoryContent (event : EventFrame) : String :=
  let uname :=
    if pyTruthy event.user_name then event.user_name.getD ""
    else if pyTruthy event.user_id then event.user_id.getD ""
    else "Unknown"
  let acts :=
    if event.detected_actions ≠ [] then String.intercalate ", " event.detected_actions
    else "None"
  event.description ++ " | User: " ++ uname ++ " | Actions: " ++ acts

/-- `EgoGraph.process_event_frame`: the outer try/except is modelled by
the two oracle cases; on `raises` the caught exception becomes a
structured error result and the state is untouched (every raising call in
the body precedes the store/graph mutation). -/
def processEventFrame (st : EgoState) (d : EventData) (reply : OracleReply) :
    EgoState × FrameResult :=
  match reply with
  | .raises msg =>
    (st, { status := "error", event_id := d.frame_id.getD "unknown", error := some msg })
  | .ok r =>
    let event := frameEvent d r
    let heuristic := heuristicImportanceScore event
    let base := frameBase d r
    let final := frameFinal st d r
    let threshold := frameThreshold st r
    let common : FrameResult :=
      { status := "processed", event_id := event.frame_id,
        importance := some final, threshold := some threshold,
        heuristic_score := some heuristic, semantic_score := some r.semantic_score,
        llm_score := some r.llm.importance, base_importance := some base,
        personality_modulation := some (if base > 0 then final / base else 1),
        node_type := some r.llm.node_type,
        relevant_memories_count := some r.retrieved.length }
    if final ≥ threshold then
      let m : MemoryNode :=
        { id := r.fresh_memory_id, content := frameMemoryContent event,
          importance := final, user_context := pyOr2 event.user_id event.user_name,
          timestamp := event.timestamp, node_type := r.llm.node_type }
      let (st2, mid) := addMemoryNode st m
      (st2, { common with
              added_to_graph := some true, memory_id := some (some mid),
              action := some "added_to_graph" })
    else
      (st, { common with
             added_to_graph := some false, memory_id := some none,
             action := some "stored_as_episodic",
             episodic_below := some (final, threshold) })

/-- The dict returned by `process_event_batch`. -/
structure BatchResult where
  status : String
  total_events : ℕ
  added_to_graph : ℕ
  episodic_memories : ℕ
  errors : ℕ
  results : List FrameResult
  deriving DecidableEq

/-- The in-order fold of `process_event_batch`'s loop; `oracle i` is the
collaborator behaviour for the i-th submitted event. -/
def processBatchAux (st : EgoState) (events : List EventData)
    (oracle : ℕ → OracleReply) (i : ℕ) : EgoState × List FrameResult :=
  match events with
  | [] => (st, [])
  | e :: rest =>
    let p := processEventFrame st e (oracle i)
    let q := processBatchAux p.1 rest oracle (i + 1)
    (q.1, p.2 :: q.2)

/-- `EgoGraph.process_event_batch` (ego_core.py lines 1215-1251). -/
def processEventBatch (st : EgoState) (events : List EventData)
    (oracle : ℕ → OracleReply) : EgoState × BatchResult :=
  let p := processBatchAux st events oracle 0
  let results := p.2
  let added := (results.filter (fun r =>
    r.status == "processed" && r.added_to_graph == some true)).length
  let episodic := (results.filter (fun r =>
    r.status == "processed" && !(r.added_to_graph == some true))).length
  let errs := (results.filter (fun r => !(r.status == "processed"))).length
  (p.1, { status := "batch_processed", total_events := events.length,
          added_to_graph := added, episodic_memories := episodic,
          errors := errs, results := results })

/-! ## Interaction pipeline (ego_core.py lines 380-831) -/

/-- A plan returned by the planning collaborator (only the fields the
memory-commit step inspects). -/
structure PlanOut where
  actions : List String := []
  confidence : ℚ := 7/10
  deriving DecidableEq

/-- Collaborator replies consumed by one `process_interaction` turn:
name extraction (regex + LLM fallback, abstracted to its outcome),
the different-person regex check, the retrieved memories, the LLM verdicts
of planning detection and decision making, the planning-server outcome,
and the generated uuid/timestamp. -/
structure InteractionOracle where
  extractedName : Option String := none
  extractedInfo : Option String := none
  differentPerson : Option String := none
  retrieved : List MemoryNode := []
  planningLLM : Bool := false
  decisionLLM : Bool := true
  planResult : Option PlanOut := none
  freshMemoryId : String := "memory-uuid"
  now : String := "now"
  deriving DecidableEq

/-- Action-keyword gate of `_detect_planning_need` (ego_core.py lines
629-631). -/
def planningActionKeywords : List String :=
  ["pick up", "move", "bring", "get", "navigate", "go to", "transport",
   "place", "put", "grab", "lift", "carry", "deliver", "fetch", "retrieve",
   "organize", "clean", "arrange", "water", "cup", "grab me"]

/-- `EgoGraph._detect_planning_need`: no action keyword short-circuits to
false; otherwise the LLM (or its keyword fallback) decides, abstracted as
`llmReply`. -/
def detectPlanningNeed (action : String) (llmReply : Bool) : Bool :=
  let actionLower := strLower action
  if planningActionKeywords.any (fun kw => strContains actionLower kw) then llmReply
  else false

/-- Safe-request keywords of `_make_decision` (ego_core.py line 733). -/
def safeKeywords : List String := ["water", "cup", "get", "bring", "grab"]

/-- `EgoGraph._make_decision`, reduced to its `proceed` verdict: a
perception rejection refuses, a safe keyword with Agreeableness > 0.5
proceeds, and otherwise the LLM (with default-to-proceed fallback)
decides, abstracted as `llmProceed`. -/
def makeDecisionProceed (st : EgoState) (action : String)
    (perceptionDecision : String) (llmProceed : Bool) : Bool :=
  if perceptionDecision == "reject" then false
  else if safeKeywords.any (fun kw => strContains (strLower action) kw) &&
      st.personality.Agreeableness > 1/2 then true
  else llmProceed

/-- Strip leading and trailing characters drawn from `cs`
(Python `str.strip(". ")`). -/
def stripChars (cs : List Char) (s : String) : String :=
  let l := s.toList.dropWhile (fun c => cs.contains c)
  let l := (l.reverse.dropWhile (fun c => cs.contains c)).reverse
  String.mk l

/-- `EgoGraph._create_user_node` (ego_core.py lines 593-620). -/
def createUserNode (g : Graph) (name : String) (info : Option String)
    (time : String) : Graph :=
  let uid := "user_" ++
    String.mk ((strLower name).data.map (fun c => if c == ' ' then '_' else c))
  if g.hasNode uid then
    match info with
    | some i =>
      { g with nodes := g.nodes.map (fun p =>
          if p.1 == uid then
            let oldContent := p.2.content.getD ""
            if strContains oldContent i then p
            else (p.1, { p.2 with
                         content := some (stripChars ['.', ' ']
                           (oldContent ++ ". " ++ i)) })
          else p) }
    | none => g
  else
    let content := "User: " ++ name ++ (match info with | some i => ". " ++ i | none => "")
    let g := g.addNode uid
      { node_type := some "user", content := some content, importance := some (4/5),
        size := some 25, timestamp := some time }
    g.addEdge "SELF" uid { weight := 1/2, edge_type := "knows" }

/-- The fields of `process_interaction`'s return value the core computes
itself (LLM response text omitted). -/
structure InteractionResult where
  perception : PerceptionResult
  needs_planning : Bool
  proceed : Option Bool
  plan : Option PlanOut
  memory : MemoryNode
  memory_id : String
  deriving DecidableEq

/-- `EgoGraph.process_interaction` (ego_core.py lines 380-494): identity
resolution, perception filtering, planning-need detection, decision, plan
generation, and the memory commit for the turn. -/
def processInteraction (st : EgoState) (user action : String)
    (o : InteractionOracle) : EgoState × InteractionResult :=
  let currentUserName :=
    match o.extractedName with
    | some n => n
    | none =>
      if user == "User" then
        match o.differentPerson with
        | some n => n
        | none => user
      else user
  let st1 :=
    match o.extractedName with
    | some n => { st with graph := createUserNode st.graph n o.extractedInfo o.now }
    | none => st
  let perception := filterPerception st1 action
  let needsPlanning := detectPlanningNeed action o.planningLLM
  let pd : Option Bool × Option PlanOut :=
    if needsPlanning then
      let proceed := makeDecisionProceed st1 action perception.decision o.decisionLLM
      if proceed then (some true, o.planResult) else (some false, none)
    else (none, none)
  let plan := pd.2
  let importance : ℚ := 1/2
  let importance := if perception.decision == "reject" then 7/10 else importance
  let importance := if needsPlanning then 3/5 else importance
  let content := currentUserName ++ " said: " ++ action
  let content :=
    match plan with
    | some pl => content ++ " | Plan generated: " ++ toString pl.actions.length ++ " actions"
    | none => content
  let m : MemoryNode :=
    { id := o.freshMemoryId, content := content, importance := importance,
      user_context := some currentUserName, timestamp := o.now,
      node_type := if plan.isSome then "achievement" else "memory" }
  let p := addMemoryNode st1 m
  (p.1, { perception := perception, needs_planning := needsPlanning,
          proceed := pd.1, plan := plan, memory := m, memory_id := p.2 })

/-! ## Helper definitions and lemmas for the theorems -/

/-- The edges of `g` that run from SELF to `id`. -/
def selfEdgesTo (g : Graph) (id : String) : List (String × String × EdgeAttrs) :=
  g.edges.filter (fun e => e.1 == "SELF" && e.2.1 == id)

theorem addNode_edges (g : Graph) (i : String) (a : NodeAttrs) :
    (g.addNode i a).edges = g.edges := by
  unfold Graph.addNode
  split <;> rfl

theorem hasNode_addNode_self (g : Graph) (i : String) (a : NodeAttrs) :
    (g.addNode i a).hasNode i = true := by
  unfold Graph.addNode Graph.hasNode
  split
  case isTrue h =>
    rcases List.any_eq_true.mp h with ⟨x, hx, hxi⟩
    dsimp only
    refine List.any_eq_true.mpr
      ⟨if x.1 == i then (i, a) else x, List.mem_map_of_mem _ hx, ?_⟩
    simp [hxi]
  case isFalse h =>
    dsimp only
    rw [List.any_append]
    simp

theorem addEdge_nodes_sub (g : Graph) (s t : String) (a : EdgeAttrs) :
    ∃ l, (g.addEdge s t a).nodes = g.nodes ++ l := by
  simp only [Graph.addEdge]
  split <;> split <;> (try split) <;>
    first
      | exact ⟨[], (List.append_nil _).symm⟩
      | exact ⟨_, rfl⟩
      | exact ⟨_, (List.append_assoc _ _ _)⟩

theorem hasNode_addEdge_mono (g : Graph) (s t x : String) (a : EdgeAttrs)
    (h : g.hasNode x = true) : (g.addEdge s t a).hasNode x = true := by
  obtain ⟨l, hl⟩ := addEdge_nodes_sub g s t a
  unfold Graph.hasNode at h ⊢
  rw [hl, List.any_append, h]
  rfl

theorem filter_map_replace {α : Type} (p : α → Bool) (f : α → α) (l : List α)
    (hf : ∀ e, p e = true → f e = e) (hp : ∀ e, p (f e) = p e) :
    (l.map f).filter p = l.filter p := by
  induction l with
  | nil => rfl
  | cons a l ih =>
    by_cases hpa : p a = true
    · simp only [List.map_cons, List.filter_cons, hp, hpa, hf a hpa, if_pos, ih]
    · have : p a = false := by simpa using hpa
      simp only [List.map_cons, List.filter_cons, hp, this, ih]
      simp

theorem addEdge_edges_eq (g : Graph) (s t : String) (a : EdgeAttrs) :
    (g.addEdge s t a).edges =
      if g.edges.any (fun e => e.1 == s && e.2.1 == t) then
        g.edges.map (fun e => if e.1 == s && e.2.1 == t then (s, t, a) else e)
      else g.edges ++ [(s, t, a)] := by
  simp only [Graph.addEdge]
  split <;> split <;> (try split) <;> rfl

theorem selfEdgesTo_addEdge_ne (g : Graph) (s t id : String) (a : EdgeAttrs)
    (h : (s == "SELF" && t == id) = false) :
    selfEdgesTo (g.addEdge s t a) id = selfEdgesTo g id := by
  have hpe : ((s, t, a).1 == "SELF" && (s, t, a).2.1 == id) = false := by simpa using h
  unfold selfEdgesTo
  rw [addEdge_edges_eq]
  split
  case isTrue hex =>
    apply filter_map_replace
    · intro e hpe'
      by_cases he : (e.1 == s && e.2.1 == t) = true
      · exfalso
        have h1 : e.1 = s := eq_of_beq ((Bool.and_eq_true _ _).mp he).1
        have h2 : e.2.1 = t := eq_of_beq ((Bool.and_eq_true _ _).mp he).2
        rw [Bool.and_eq_true] at hpe'
        have hs : s = "SELF" := by rw [← h1]; exact eq_of_beq hpe'.1
        have ht : t = id := by rw [← h2]; exact eq_of_beq hpe'.2
        rw [hs, ht] at h
        simp at h
      · have : (e.1 == s && e.2.1 == t) = false := by simpa using he
        simp [this]
    · intro e
      by_cases he : (e.1 == s && e.2.1 == t) = true
      · have h1 : e.1 = s := eq_of_beq ((Bool.and_eq_true _ _).mp he).1
        have h2 : e.2.1 = t := eq_of_beq ((Bool.and_eq_true _ _).mp he).2
        simp only [he, if_pos]
        rw [hpe]
        apply Eq.symm
        simp only [Bool.and_eq_false_iff]
        by_cases hse : s = "SELF"
        · right
          subst hse
          have ht : ¬ t = id := by
            intro ht
            subst ht
            simp at h
          rw [h2]
          simpa using ht
        · left
          rw [h1]
          simpa using hse
      · have : (e.1 == s && e.2.1 == t) = false := by simpa using he
        simp [this]
  case isFalse hex =>
    simp [List.filter_append, hpe]

theorem selfEdgesTo_addEdge_self (g : Graph) (id : String) (a : EdgeAttrs)
    (h : selfEdgesTo g id = []) :
    selfEdgesTo (g.addEdge "SELF" id a) id = [("SELF", id, a)] := by
  unfold selfEdgesTo at h ⊢
  have hany : g.edges.any (fun e => e.1 == "SELF" && e.2.1 == id) = false := by
    rw [Bool.eq_false_iff]
    intro hc
    rcases List.any_eq_true.mp hc with ⟨e, he, hpe⟩
    have hmem : e ∈ g.edges.filter (fun e => e.1 == "SELF" && e.2.1 == id) :=
      List.mem_filter.mpr ⟨he, hpe⟩
    rw [h] at hmem
    exact absurd hmem (List.not_mem_nil e)
  rw [addEdge_edges_eq]
  simp only [hany, Bool.false_eq_true, if_false, List.filter_append, h]
  simp

theorem selfEdgesTo_addNode (g : Graph) (i : String) (a : NodeAttrs) (id : String) :
    selfEdgesTo (g.addNode i a) id = selfEdgesTo g id := by
  unfold selfEdgesTo
  rw [addNode_edges]

theorem userNodeId_ne_self (uc : String) : (("USER_" ++ uc) == "SELF") = false := by
  rw [beq_eq_false_iff_ne]
  intro hEq
  have hlen := congrArg String.length hEq
  rw [String.length_append] at hlen
  have h5 : "USER_".length = 5 := rfl
  have h4 : "SELF".length = 4 := rfl
  omega

/-! ## C1 -/

/-- The demo state of the idempotence test: a fresh agent after
`inject_trauma` (one SELF→threat edge, Neuroticism 0.9). -/
def c1TraumaState : EgoState :=
  (injectTrauma initialState "trauma-1" "sudden dangerous attack" "t0").1

/-- First `reweight_edges` call with no intervening personality change. -/
def c1FirstReweight : Graph :=
  reweightEdges c1TraumaState.graph c1TraumaState.personality

/-- Second `reweight_edges` call, still with no personality change. -/
def c1SecondReweight : Graph :=
  reweightEdges c1FirstReweight c1TraumaState.personality

/-- C1: the claim states `reweight_edges` is idempotent for a fixed
personality snapshot.  The code reads the base weight from the current
(already scaled) edge weight, so each call multiplies SELF→threat weights
by (1 + Neuroticism) again: starting from the post-trauma weight
0.95·1.9 = 1.805, a first call yields 3.4295 and a second call 6.51605 —
the two successive calls do not yield identical edge weights, and the
scaling compounds. -/
theorem c1_reweight_edges_compound :
    c1TraumaState.graph.edgeWeight "SELF" "trauma-1" = some (361/200) ∧
    c1FirstReweight.edgeWeight "SELF" "trauma-1" = some (6859/2000) ∧
    c1SecondReweight.edgeWeight "SELF" "trauma-1" = some (130321/20000) ∧
    ¬ c1SecondReweight = c1FirstReweight := by decide

/-! ## C3 -/

/-- C3: `update_trait` stores the clamped value for each of the five
recognized trait names (so 1.5 clamps to 1.0 and −0.3 clamps to 0.0, and
the stored value always lies in [0,1]), and any unrecognized name leaves
the whole trait vector unchanged. -/
theorem c3_update_trait_clamps (p : PersonalityVector) (v : ℚ) (name : String)
    (h : name ∉ traitNames) :
    p.update_trait name v = p ∧
    (p.update_trait "Openness" v).Openness = clamp01 v ∧
    (p.update_trait "Conscientiousness" v).Conscientiousness = clamp01 v ∧
    (p.update_trait "Extroversion" v).Extroversion = clamp01 v ∧
    (p.update_trait "Agreeableness" v).Agreeableness = clamp01 v ∧
    (p.update_trait "Neuroticism" v).Neuroticism = clamp01 v ∧
    (0 ≤ clamp01 v ∧ clamp01 v ≤ 1) ∧
    clamp01 (3/2) = 1 ∧ clamp01 (-(3/10)) = 0 := by
  simp only [traitNames, List.mem_cons, List.not_mem_nil, or_false, not_or] at h
  obtain ⟨h1, h2, h3, h4, h5⟩ := h
  refine ⟨?_, ?_, ?_, ?_, ?_, ?_, ⟨?_, ?_⟩, ?_, ?_⟩
  · simp [PersonalityVector.update_trait, h1, h2, h3, h4, h5]
  · simp [PersonalityVector.update_trait]
  · simp [PersonalityVector.update_trait]
  · simp [PersonalityVector.update_trait]
  · simp [PersonalityVector.update_trait]
  · simp [PersonalityVector.update_trait]
  · exact le_max_left 0 _
  · exact max_le (by norm_num) (min_le_left 1 v)
  · decide
  · decide

/-- Witness for C3 at a concrete unrecognized name and value. -/
theorem c3_update_trait_clamps_witness :
    "Charisma" ∉ traitNames ∧
    pvDefault.update_trait "Charisma" (7/10) = pvDefault ∧
    (pvDefault.update_trait "Openness" (3/2)).Openness = 1 := by
  have hn : "Charisma" ∉ traitNames := by decide
  have main := c3_update_trait_clamps pvDefault (3/2) "Charisma" hn
  exact ⟨hn, (c3_update_trait_clamps pvDefault (7/10) "Charisma" hn).1,
    main.2.1.trans main.2.2.2.2.2.2.2.1⟩

/-! ## C4 -/

/-- The config base-threshold table agrees with the table the spec
lists. -/
theorem THRESHOLDS_eq_spec_base (t : String) :
    THRESHOLDS t =
      (if t = "trauma" ∨ t = "threat" then 3/10
       else if t = "joy" then 3/5
       else if t = "achievement" then 1/2
       else if t = "routine" then 7/10
       else if t = "casual" then 4/5
       else (1/2 : ℚ)) := by
  unfold THRESHOLDS
  rcases eq_or_ne t "trauma" with h1 | h1
  · simp [h1]
  rcases eq_or_ne t "threat" with h2 | h2
  · simp [h1, h2]
  rcases eq_or_ne t "joy" with h3 | h3
  · simp [h1, h2, h3]
  rcases eq_or_ne t "achievement" with h4 | h4
  · simp [h1, h2, h3, h4]
  rcases eq_or_ne t "interaction" with h5 | h5
  · simp [h1, h2, h3, h4, h5]
  rcases eq_or_ne t "memory" with h6 | h6
  · simp [h1, h2, h3, h4, h5, h6]
  rcases eq_or_ne t "routine" with h7 | h7
  · simp [h1, h2, h3, h4, h5, h6, h7]
  rcases eq_or_ne t "casual" with h8 | h8
  · simp [h1, h2, h3, h4, h5, h6, h7, h8]
  simp [h1, h2, h3, h4, h5, h6, h7, h8]

/-- C4: the dynamic admission threshold computed by `determine_threshold`
equals, for every event type, memory count and personality, the spec's
formula (per-type base, +0.1 above the density constant, −0.2 for
threat/trauma at Neuroticism > 0.7, clamped to [0.1, 0.9]); and for
node_type "trauma" the threshold with Neuroticism 0.9 is strictly lower
than with Neuroticism 0.2, all else equal. -/
theorem c4_determine_threshold_matches_spec :
    (∀ (t : String) (mc : ℕ) (p : PersonalityVector),
      determine_threshold t mc p = specThreshold t mc p.Neuroticism) ∧
    (∀ (mc : ℕ) (p : PersonalityVector),
      determine_threshold "trauma" mc { p with Neuroticism := 9/10 } <
        determine_threshold "trauma" mc { p with Neuroticism := 1/5 }) := by
  constructor
  · intro t mc p
    unfold determine_threshold specThreshold
    rw [THRESHOLDS_eq_spec_base]
  · intro mc p
    by_cases hmc : mc > MEMORY_DENSITY_THRESHOLD
    · unfold determine_threshold
      simp only [hmc, if_true]
      decide
    · unfold determine_threshold
      simp only [hmc, if_false]
      decide

/-! ## C7 -/

/-- C7: whenever the graph holds a trauma- or threat-typed node and
Neuroticism exceeds 0.6, `filter_perception` returns decision "reject",
whatever the utterance. -/
theorem c7_trauma_override_rejects (st : EgoState) (intent : String)
    (h1 : hasTraumaNodes st.graph = true)
    (h2 : st.personality.Neuroticism > 3/5) :
    (filterPerception st intent).decision = "reject" := by
  unfold filterPerception
  simp [h1, h2]

/-- The end-to-end trauma scenario state: `inject_trauma` with importance
0.95 and node type "threat". -/
def c7TraumaState : EgoState :=
  (injectTrauma initialState "trauma-7" "sudden attack by a stranger" "t0").1

/-- Witness for C7: after the trauma injection (Neuroticism 0.9,
Agreeableness 0.1) a "friendly wave" utterance is rejected. -/
theorem c7_trauma_override_rejects_witness :
    c7TraumaState.personality.Neuroticism = 9/10 ∧
    c7TraumaState.personality.Agreeableness = 1/10 ∧
    (filterPerception c7TraumaState "friendly wave").decision = "reject" :=
  ⟨by decide, by decide,
    c7_trauma_override_rejects c7TraumaState "friendly wave" (by decide) (by decide)⟩

/-! ## C10 -/

/-- C10: with no trauma/threat node in the graph and an utterance free of
all six trigger keywords, `filter_perception` returns the default outcome:
decision "accept", confidence 1.0, and the lowercased input as the
filtered intent, for every personality. -/
theorem c10_default_perception (st : EgoState) (intent : String)
    (h1 : hasTraumaNodes st.graph = false)
    (h2 : strContains (strLower intent) "sudden" = false)
    (h3 : strContains (strLower intent) "movement" = false)
    (h4 : strContains (strLower intent) "threat" = false)
    (h5 : strContains (strLower intent) "friendly" = false)
    (h6 : strContains (strLower intent) "kind" = false)
    (h7 : strContains (strLower intent) "help" = false) :
    filterPerception st intent =
      { original_intent := intent, filtered_intent := strLower intent,
        decision := "accept", confidence := 1 } := by
  unfold filterPerception
  simp [h1, h2, h3, h4, h5, h6, h7]

/-- Witness for C10 at a concrete keyword-free utterance. -/
theorem c10_default_perception_witness :
    filterPerception initialState "hello there" =
      { original_intent := "hello there", filtered_intent := "hello there",
        decision := "accept", confidence := 1 } := by
  have main := c10_default_perception initialState "hello there"
    (by decide) (by decide) (by decide) (by decide) (by decide) (by decide) (by decide)
  rw [main]
  have : strLower "hello there" = "hello there" := by decide
  rw [this]

/-! ## C2 -/

/-- C2: `add_memory_node` on a record whose id has no pre-existing
SELF-edge creates exactly one SELF→memory edge — weighted by the record's
importance, typed "global_memory" — when importance > 0.9, creates none
when importance ≤ 0.9, and in both cases returns the record's id. -/
theorem c2_add_memory_self_edge (st : EgoState) (m : MemoryNode)
    (h : selfEdgesTo st.graph m.id = []) :
    selfEdgesTo (addMemoryNode st m).1.graph m.id =
      (if m.importance > 9/10 then
        [("SELF", m.id, { weight := m.importance, edge_type := "global_memory" })]
       else []) ∧
    (addMemoryNode st m).2 = m.id := by
  refine ⟨?_, rfl⟩
  unfold addMemoryNode
  dsimp only
  set gM := st.graph.addNode m.id
    { node_type := some m.node_type, content := some m.content,
      importance := some m.importance, user_context := some m.user_context,
      timestamp := some m.timestamp,
      size := some (10 + m.importance * 20) } with hgM
  have e1 : selfEdgesTo gM m.id = [] := by
    rw [hgM, selfEdgesTo_addNode]
    exact h
  have hasM : gM.hasNode m.id = true := by
    rw [hgM]
    exact hasNode_addNode_self _ _ _
  by_cases him : m.importance > 9/10
  · rw [if_pos him, if_pos him]
    set gE := gM.addEdge "SELF" m.id
      { weight := m.importance, edge_type := "global_memory" } with hgE
    have e2 : selfEdgesTo gE m.id =
        [("SELF", m.id, { weight := m.importance, edge_type := "global_memory" })] := by
      rw [hgE]
      exact selfEdgesTo_addEdge_self _ _ _ e1
    have hasE : gE.hasNode m.id = true := by
      rw [hgE]
      exact hasNode_addEdge_mono _ _ _ _ _ hasM
    rcases m.user_context with _ | uc
    · exact e2
    · dsimp only
      by_cases hu : gE.hasNode ("USER_" ++ uc) = true
      · rw [if_pos hu]
        rw [selfEdgesTo_addEdge_ne _ _ _ _ _ (by simp [userNodeId_ne_self uc])]
        exact e2
      · rw [if_neg hu]
        have hneq : (("USER_" ++ uc) == m.id) = false := by
          rw [beq_eq_false_iff_ne]
          intro hEq
          exact hu (hEq ▸ hasE)
        rw [selfEdgesTo_addEdge_ne _ _ _ _ _ (by simp [userNodeId_ne_self uc])]
        rw [selfEdgesTo_addEdge_ne _ _ _ _ _ (by simp [hneq])]
        rw [selfEdgesTo_addNode]
        exact e2
  · rw [if_neg him, if_neg him]
    rcases m.user_context with _ | uc
    · exact e1
    · dsimp only
      by_cases hu : gM.hasNode ("USER_" ++ uc) = true
      · rw [if_pos hu]
        rw [selfEdgesTo_addEdge_ne _ _ _ _ _ (by simp [userNodeId_ne_self uc])]
        exact e1
      · rw [if_neg hu]
        have hneq : (("USER_" ++ uc) == m.id) = false := by
          rw [beq_eq_false_iff_ne]
          intro hEq
          exact hu (hEq ▸ hasM)
        rw [selfEdgesTo_addEdge_ne _ _ _ _ _ (by simp [userNodeId_ne_self uc])]
        rw [selfEdgesTo_addEdge_ne _ _ _ _ _ (by simp [hneq])]
        rw [selfEdgesTo_addNode]
        exact e1

/-- The C2 witness record: importance 0.95 with a user scope. -/
def c2Record : MemoryNode :=
  { id := "mem-2", content := "met a new friend", importance := 19/20,
    user_context := some "alice", timestamp := "t1", node_type := "memory" }

/-- Witness for C2 at a concrete high-importance record on the fresh
state. -/
theorem c2_add_memory_self_edge_witness :
    selfEdgesTo initialState.graph c2Record.id = [] ∧
    selfEdgesTo (addMemoryNode initialState c2Record).1.graph c2Record.id =
      [("SELF", "mem-2", { weight := 19/20, edge_type := "global_memory" })] ∧
    (addMemoryNode initialState c2Record).2 = "mem-2" := by
  have h : selfEdgesTo initialState.graph c2Record.id = [] := by decide
  have main := c2_add_memory_self_edge initialState c2Record h
  refine ⟨h, ?_, main.2⟩
  rw [main.1]
  decide

/-! ## C6 -/

/-- C6: when the final importance falls strictly below the admission
threshold, `process_event_frame` leaves the whole state (graph and store)
unchanged and reports the episodic outcome with the computed score and
the shortfall reason. -/
theorem c6_episodic_event_no_mutation (st : EgoState) (d : EventData) (r : OkReply)
    (h : frameFinal st d r < frameThreshold st r) :
    (processEventFrame st d (.ok r)).1 = st ∧
    ((processEventFrame st d (.ok r)).2).action = some "stored_as_episodic" ∧
    ((processEventFrame st d (.ok r)).2).added_to_graph = some false ∧
    ((processEventFrame st d (.ok r)).2).importance = some (frameFinal st d r) ∧
    ((processEventFrame st d (.ok r)).2).episodic_below =
      some (frameFinal st d r, frameThreshold st r) ∧
    ((processEventFrame st d (.ok r)).2).memory_id = some none ∧
    ((processEventFrame st d (.ok r)).2).status = "processed" := by
  have hne : ¬ frameFinal st d r ≥ frameThreshold st r := not_le.mpr h
  unfold processEventFrame
  dsimp only
  rw [if_neg hne]
  exact ⟨rfl, rfl, rfl, rfl, rfl, rfl, rfl⟩

/-- The C6 witness event: a low-salience description. -/
def c6Event : EventData := { description := some "a casual day at the lab" }

/-- The C6 witness collaborator reply: neutral semantic prior, LLM scores
it unimportant and casual (admission threshold 0.8). -/
def c6Reply : OkReply :=
  { semantic_score := 0,
    llm := { importance := 0, reasoning := "dull", node_type := "casual",
             threshold := 4/5 } }

/-- Witness for C6 at a concrete sub-threshold event. -/
theorem c6_episodic_event_no_mutation_witness :
    frameFinal initialState c6Event c6Reply < frameThreshold initialState c6Reply ∧
    (processEventFrame initialState c6Event (.ok c6Reply)).1 = initialState ∧
    ((processEventFrame initialState c6Event (.ok c6Reply)).2).action =
      some "stored_as_episodic" := by
  have h : frameFinal initialState c6Event c6Reply <
      frameThreshold initialState c6Reply := by decide
  have main := c6_episodic_event_no_mutation initialState c6Event c6Reply h
  exact ⟨h, main.1, main.2.1⟩

/-! ## C8 -/

/-- The C8 event dictionary with the required description field missing
(all keys absent). -/
def c8MissingDescription : EventData := {}

/-- The C8 collaborator reply: normally behaving collaborators (parsing a
dict with missing keys raises nothing — `from_dict` substitutes
defaults). -/
def c8Reply : OkReply :=
  { semantic_score := 1/2,
    llm := { importance := 1/2, reasoning := "r", node_type := "memory",
             threshold := 1/2 } }

/-- C8 counterexample: the claim states an event dict missing the
description field is rejected with an error-status result; in the code
`EventFrame.from_dict` substitutes an empty description and processing
completes with status "processed", not an error. -/
theorem c8_missing_description_processed :
    c8MissingDescription.description = none ∧
    (processEventFrame initialState c8MissingDescription (.ok c8Reply)).2.status =
      "processed" ∧
    ¬ (processEventFrame initialState c8MissingDescription (.ok c8Reply)).2.status =
      "error" := by decide

/-- C8 amended: missing event fields are substituted with defaults and
the event is processed normally (status "processed" for every completing
run); only an exception raised during processing yields the structured
error result — with the error message, the dict's frame id (or "unknown"),
and the state untouched. -/
theorem c8_amended_defaults_and_error_catch (st : EgoState) (d : EventData)
    (r : OkReply) (msg : String) :
    (processEventFrame st d (.ok r)).2.status = "processed" ∧
    processEventFrame st d (.raises msg) =
      (st, { status := "error", event_id := d.frame_id.getD "unknown",
             error := some msg }) := by
  constructor
  · unfold processEventFrame
    dsimp only
    split <;> rfl
  · rfl

/-! ## C5 -/

theorem frame_status_eq (st : EgoState) (d : EventData) (reply : OracleReply) :
    ((processEventFrame st d reply).2).status = reply.statusOf := by
  cases reply with
  | raises msg => rfl
  | ok r =>
    unfold processEventFrame
    dsimp only
    split <;> rfl

theorem batch_aux_statuses (events : List EventData) :
    ∀ (st : EgoState) (oracle : ℕ → OracleReply) (i : ℕ),
      ((processBatchAux st events oracle i).2).map (fun r => r.status) =
        (List.range events.length).map (fun j => (oracle (i + j)).statusOf) := by
  induction events with
  | nil =>
    intro st oracle i
    rfl
  | cons e rest ih =>
    intro st oracle i
    simp only [processBatchAux, List.map_cons, List.length_cons,
      List.range_succ_eq_map, List.map_map]
    congr 1
    · rw [frame_status_eq]
      simp
    · rw [ih]
      apply List.map_congr_left
      intro j hj
      simp only [Function.comp]
      have harith : i + 1 + j = i + (j + 1) := by omega
      rw [harith]

/-- C5: `process_event_batch` yields exactly one result entry per
submitted event, in submission order: the i-th entry's status is
"processed" when the i-th event's run completes and "error" when it
raises, so a single raising event yields a single error entry without
aborting its siblings; an exception is converted into the structured
error result (message, frame id or "unknown") with the state untouched. -/
theorem c5_batch_order_and_error_isolation (st : EgoState)
    (events : List EventData) (oracle : ℕ → OracleReply) :
    ((processEventBatch st events oracle).2).results.length = events.length ∧
    ((processEventBatch st events oracle).2).total_events = events.length ∧
    ((processEventBatch st events oracle).2).results.map (fun r => r.status) =
      (List.range events.length).map (fun j => (oracle j).statusOf) ∧
    (∀ (st' : EgoState) (d : EventData) (msg : String),
      processEventFrame st' d (.raises msg) =
        (st', { status := "error", event_id := d.frame_id.getD "unknown",
                error := some msg })) := by
  have hmap := batch_aux_statuses events st oracle 0
  simp only [Nat.zero_add] at hmap
  have hres : ((processEventBatch st events oracle).2).results =
      (processBatchAux st events oracle 0).2 := rfl
  refine ⟨?_, rfl, ?_, fun st' d msg => rfl⟩
  · have hlen := congrArg List.length hmap
    simpa [hres] using hlen
  · rw [hres]
    exact hmap

/-! ## C9 -/

/-- C9 counterexample state: a fresh agent whose Neuroticism has been
driven to 0.9 (so threat keywords force a perception rejection). -/
def c9State : EgoState :=
  { graph := initialGraph, personality := { pvDefault with Neuroticism := 9/10 },
    store := [] }

/-- C9 counterexample oracle: the planning-need LLM confirms the keyword
gate's hit. -/
def c9Oracle : InteractionOracle := { planningLLM := true }

/-- C9 counterexample: the claim states a rejected turn commits
importance 0.7.  For "sudden movement, pick up the cup" perception
rejects AND the planning gate fires, and the code's later
`importance = 0.6` assignment overwrites the 0.7 one, so the committed
record has importance 0.6 ≠ 0.7. -/
theorem c9_reject_with_planning_commits_06 :
    ((processInteraction c9State "User" "sudden movement, pick up the cup"
        c9Oracle).2).perception.decision = "reject" ∧
    ((processInteraction c9State "User" "sudden movement, pick up the cup"
        c9Oracle).2).needs_planning = true ∧
    ((processInteraction c9State "User" "sudden movement, pick up the cup"
        c9Oracle).2).memory.importance = 3/5 ∧
    ¬ ((3 : ℚ)/5 = 7/10) := by decide

/-- C9 amended: every turn commits exactly one interaction record; its
importance is 0.5 by default, 0.7 on a perception rejection, but 0.6
whenever planning was detected — the planning assignment overrides the
rejection one rather than compounding with it; the node type is
"achievement" exactly when a plan was produced, else "memory". -/
theorem c9_memory_commit_rule (st : EgoState) (user action : String)
    (o : InteractionOracle) :
    (processInteraction st user action o).1.store =
      st.store ++ [(processInteraction st user action o).2.memory] ∧
    (processInteraction st user action o).2.memory.importance =
      (if (processInteraction st user action o).2.needs_planning then 3/5
       else if ((processInteraction st user action o).2).perception.decision == "reject"
         then 7/10
       else 1/2) ∧
    (processInteraction st user action o).2.memory.node_type =
      (if ((processInteraction st user action o).2).plan.isSome then "achievement"
       else "memory") := by
  obtain ⟨en, ei, dp, rt, pl, dl, pr, fid, tnow⟩ := o
  cases en <;>
    refine ⟨?_, ?_, ?_⟩ <;>
      (unfold processInteraction addMemoryNode; dsimp only)

end Eden
